import Mathlib

/-!
Verification of the training-job orchestration and streaming-enhancement
subsystem of the reasoningmodel backend.  The definitions below are a
shallow embedding of `backend/services/model_trainer.py` (classes
`ModelTrainer`), of the relevant parts of
`backend/services/ec2_connector.py` (`generate_response_stream`), and of
the `/prompt/enhance/stream` endpoint wrapper in `backend/main.py`.
Remote-gateway responses (`execute_command`, `generate_response`,
`generate_response_stream`) are inputs to the embedded operations, since
the gateway is the external collaborator.
-/

namespace ReasoningModel

/-! ### Python string primitives -/

/-- Python `needle in hay` substring test, on character lists. -/
def containsSub (needle : List Char) : List Char → Bool
  | [] => needle.isEmpty
  | c :: t => needle.isPrefixOf (c :: t) || containsSub needle t

/-- Python `needle in hay` on strings. -/
def pyIn (needle hay : String) : Bool :=
  containsSub needle.toList hay.toList

/-- Split a character list at every occurrence of a non-empty separator,
keeping empty pieces (Python `str.split(sep)`).  The first argument is
recursion fuel, an upper bound on the number of characters consumed. -/
def splitOnFuel (sep : List Char) : ℕ → List Char → List Char → List (List Char)
  | 0, acc, _ => [acc.reverse]
  | _ + 1, acc, [] => [acc.reverse]
  | fuel + 1, acc, c :: rest =>
    if sep ≠ [] ∧ sep.isPrefixOf (c :: rest) then
      acc.reverse :: splitOnFuel sep fuel [] ((c :: rest).drop sep.length)
    else splitOnFuel sep fuel (c :: acc) rest

/-- Python `s.split(sep)` on character lists. -/
def splitOnL (sep cs : List Char) : List (List Char) :=
  splitOnFuel sep (cs.length + 1) [] cs

/-- Python `s.split(sep)` on strings. -/
def pySplitOnStr (s sep : String) : List String :=
  (splitOnL sep.toList s.toList).map (fun cs => ⟨cs⟩)

/-- Python `str.split()` with no argument on character lists: split on
whitespace runs, dropping empty pieces. -/
def splitWsAux : List Char → List Char → List (List Char)
  | acc, [] => if acc = [] then [] else [acc.reverse]
  | acc, c :: rest =>
    if c.isWhitespace then
      if acc = [] then splitWsAux [] rest
      else acc.reverse :: splitWsAux [] rest
    else splitWsAux (c :: acc) rest

/-- Python `str.split()` with no argument, on strings. -/
def pySplit (s : String) : List String :=
  (splitWsAux [] s.toList).map (fun cs => ⟨cs⟩)

/-- Python `str.strip()` on character lists. -/
def trimL (cs : List Char) : List Char :=
  ((cs.dropWhile Char.isWhitespace).reverse.dropWhile Char.isWhitespace).reverse

/-- Python `str.strip()` on strings. -/
def pyStrip (s : String) : String :=
  ⟨trimL s.toList⟩

/-- Python `str.lower()`. -/
def pyLower (s : String) : String :=
  ⟨s.toList.map Char.toLower⟩

/-- Python `" ".join(words)` (and general separator joins). -/
def joinWith (sep : List Char) : List (List Char) → List Char
  | [] => []
  | [w] => w
  | w :: ws => w ++ sep ++ joinWith sep ws

/-- Python `" ".join(words)` on strings. -/
def joinSp (ws : List String) : String :=
  ⟨joinWith [' '] (ws.map String.toList)⟩

/-- Numeric value of a digit list (most significant first). -/
def natValD (cs : List Char) : ℕ :=
  cs.foldl (fun a c => a * 10 + (c.toNat - 48)) 0

/-- Python `int(s)` on a string: optional surrounding whitespace, optional
sign, then a non-empty run of digits; anything else raises `ValueError`,
modelled as `none`. -/
def pyInt (s : String) : Option Int :=
  match trimL s.toList with
  | [] => none
  | '-' :: rest => if rest ≠ [] ∧ rest.all Char.isDigit then some (-(natValD rest : Int)) else none
  | '+' :: rest => if rest ≠ [] ∧ rest.all Char.isDigit then some (natValD rest : Int) else none
  | c :: rest => if (c :: rest).all Char.isDigit then some (natValD (c :: rest) : Int) else none

/-- Python `float(s)` restricted to strings made of digits and dots (the
only strings the loss regex can capture): valid iff there is at least one
digit and at most one dot. -/
def pyFloat (cs : List Char) : Option ℚ :=
  if cs.any Char.isDigit then
    match cs.splitOn '.' with
    | [i] => some (mkRat (natValD i) 1)
    | [i, f] => some (mkRat (natValD i * 10 ^ f.length + natValD f) (10 ^ f.length))
    | _ => none
  else none

/-- Python `template.format(prompt=p)` for templates whose only
replacement field is `\x7bprompt\x7d`. -/
def pyFormat (template p : String) : String :=
  ⟨joinWith p.toList (splitOnL "\x7bprompt\x7d".toList template.toList)⟩

/-- Python `l[-n:]`. -/
def takeLast (n : ℕ) (l : List String) : List String :=
  l.drop (l.length - n)

/-- `result["stdout"].strip().split('\n')`: the refreshed batch of log
lines in `_update_training_logs`. -/
def linesOf (stdout : String) : List String :=
  (splitOnL ['\n'] (trimL stdout.toList)).map (fun cs => ⟨cs⟩)

/-! ### Data model (`models/schemas.py` and the `training_jobs` records) -/

/-- `TrainingStatus` enum. -/
inductive TrainingStatus where
  | pending
  | running
  | completed
  | failed
  | stopped
deriving DecidableEq, Repr

/-- Terminal statuses, the list checked by `_monitor_training`. -/
def TrainingStatus.isTerminal : TrainingStatus → Bool
  | .completed => true
  | .failed => true
  | .stopped => true
  | _ => false

/-- `EnhancementType` enum. -/
inductive EnhancementType where
  | reasoning
  | logic
  | creativity
  | analysis
  | problem_solving
deriving DecidableEq, Repr

/-- `enhancement_type.value`. -/
def EnhancementType.val : EnhancementType → String
  | .reasoning => "reasoning"
  | .logic => "logic"
  | .creativity => "creativity"
  | .analysis => "analysis"
  | .problem_solving => "problem_solving"

/-- Result dictionary of `EC2Connector.execute_command`. -/
structure CmdResult where
  success : Bool
  stdout : String
  stderr : String
deriving DecidableEq, Repr

/-- One record of the in-memory `self.training_jobs` store.  Timestamps
are abstract naturals; `datetime.now()` values are passed in as inputs. -/
structure JobInfo where
  jobId : String
  pid : String
  status : TrainingStatus
  createdAt : ℕ
  updatedAt : ℕ
  progress : ℚ
  currentEpoch : Int
  totalEpochs : ℕ
  loss : Option ℚ
  logs : List String
deriving DecidableEq, Repr

/-- The `training_jobs` dict: association list keyed by `training_id`. -/
abbrev Registry := List (String × JobInfo)

/-- Dict lookup `training_jobs[training_id]`. -/
def rlookup : Registry → String → Option JobInfo
  | [], _ => none
  | p :: t, id => if p.1 = id then some p.2 else rlookup t id

/-- In-place mutation of the record stored under `id`. -/
def rupdate : Registry → String → (JobInfo → JobInfo) → Registry
  | [], _, _ => []
  | p :: t, id, f => (if p.1 = id then (p.1, f p.2) else p) :: rupdate t id f

/-! ### Progress log parser (`_update_training_logs`, lines 573-618) -/

/-- The epoch extraction of lines 590-596:
`parts = log.split()`, `epoch_part = [p for p in parts if "Epoch" in p][0]`,
`int(epoch_part.split('/')[0].split()[-1])`; any `IndexError`/`ValueError`
is swallowed by the bare `except`, modelled as `none`. -/
def epochParse (log : String) : Option Int :=
  let parts := pySplit log
  match parts.filter (fun p => pyIn "Epoch" p) with
  | [] => none
  | ep :: _ =>
    let t0 := ((pySplitOnStr ep "/").headD "")
    match pySplit t0 with
    | [] => none
    | fs => pyInt (fs.getLastD "")

/-- The search of the regex `loss[:\s]*([0-9\.]+)` over a lowered line:
find the first occurrence of "loss" that, after a greedy run of `:` or
whitespace, is followed by at least one `[0-9.]` character, and capture
that maximal `[0-9.]` run. -/
def lossScan : List Char → Option (List Char)
  | [] => none
  | c :: rest =>
    if ['l', 'o', 's', 's'].isPrefixOf (c :: rest) then
      let after := ((c :: rest).drop 4).dropWhile (fun ch => ch = ':' ∨ ch.isWhitespace)
      let digits := after.takeWhile (fun ch => ch.isDigit ∨ ch = '.')
      if digits.isEmpty then lossScan rest else some digits
    else lossScan rest

/-- Lines 600-608: `re.search(r'loss[:\s]*([0-9\.]+)', log.lower())` then
`float(...)`; failures swallowed. -/
def lossParse (lowered : String) : Option ℚ :=
  match lossScan lowered.toList with
  | none => none
  | some digits => pyFloat digits

/-- First block of the `for log in logs` loop body (lines 589-598): the
epoch/progress update.  Note line 595 mutates `current_epoch` before line
596 divides, so a `ZeroDivisionError` (total_epochs = 0) leaves `progress`
untouched but keeps the epoch write. -/
def epochStep (job : JobInfo) (log : String) : JobInfo :=
  if pyIn "Epoch" log ∧ pyIn "/" log then
    match epochParse log with
    | none => job
    | some e =>
      if job.totalEpochs = 0 then { job with currentEpoch := e }
      else { job with currentEpoch := e,
                      progress := (e : ℚ) / (job.totalEpochs : ℚ) * 100 }
  else job

/-- Second block of the loop body (lines 600-608): the loss update. -/
def lossStep (job : JobInfo) (log : String) : JobInfo :=
  if pyIn "loss" (pyLower log) then
    match lossParse (pyLower log) with
    | none => job
    | some v => { job with loss := some v }
  else job

/-- The whole `for log in logs` loop body applied to one line. -/
def parseLine (job : JobInfo) (log : String) : JobInfo :=
  lossStep (epochStep job log) log

/-- Lines 585-615 applied to the refreshed batch `logs`: store the last
20 lines, run the per-line parser over every line, stamp `updated_at`,
then apply the completion override when some line contains
"Training completed". -/
def updateFromLines (job : JobInfo) (logs : List String) (now : ℕ) : JobInfo :=
  if logs.any (fun l => pyIn "Training completed" l) then
    { logs.foldl parseLine { job with logs := takeLast 20 logs } with
        updatedAt := now, status := .completed, progress := 100 }
  else
    { logs.foldl parseLine { job with logs := takeLast 20 logs } with updatedAt := now }

/-- `_update_training_logs` on one job record, with the result of the
`tail -20 ... training.log` command as input (lines 573-618). -/
def updateLogsJob (job : JobInfo) (tail : CmdResult) (now : ℕ) : JobInfo :=
  if tail.success ∧ pyStrip tail.stdout ≠ "" then
    updateFromLines job (linesOf tail.stdout) now
  else job

/-- `_update_training_logs` at registry level: a missing id raises
`KeyError`, swallowed by the outer `except` (no-op). -/
def updateLogsReg (reg : Registry) (id : String) (tail : CmdResult) (now : ℕ) : Registry :=
  match rlookup reg id with
  | none => reg
  | some _ => rupdate reg id (fun j => updateLogsJob j tail now)

/-! ### Orchestrator operations -/

/-- The mutation of lines 152-153: `job_info["status"] = STOPPED`,
`job_info["updated_at"] = datetime.now()`. -/
def stopMark (now : ℕ) (j : JobInfo) : JobInfo :=
  { j with status := .stopped, updatedAt := now }

/-- `stop_training` (lines 139-155).  `kill` is the gateway result of
`execute_command(f"kill {pid}")`; Python truthiness of `pid` is
non-emptiness. -/
def stop_training (reg : Registry) (id : String) (kill : CmdResult) (now : ℕ) :
    Except String Registry :=
  match rlookup reg id with
  | none => .error ("Training job " ++ id ++ " not found")
  | some job =>
    if job.pid ≠ "" then
      if kill.success then .ok (rupdate reg id (stopMark now))
      else .ok reg
    else .ok reg

/-- `get_training_status` (lines 112-137): NotFound on unknown id,
otherwise one synchronous log refresh, then a snapshot of the record. -/
def get_training_status (reg : Registry) (id : String) (tail : CmdResult) (now : ℕ) :
    Except String (Registry × JobInfo) :=
  match rlookup reg id with
  | none => .error ("Training job " ++ id ++ " not found")
  | some job =>
    .ok (rupdate reg id (fun j => updateLogsJob j tail now), updateLogsJob job tail now)

/-- Insert `training_jobs[training_id] = {...}` (replacing semantics). -/
def rinsert (reg : Registry) (id : String) (job : JobInfo) : Registry :=
  (id, job) :: reg.filter (fun p => p.1 ≠ id)

/-- `start_training` in production mode (lines 36-110): `staging` is the
combined outcome of `_prepare_training_data`, `_create_training_script`
and `_transfer_files_to_ec2` (any raised exception propagates through the
re-raising handler of lines 108-110); `launch` is the gateway result of
the nohup launch command.  Returns the call result, the registry
afterwards, and whether a monitor task was spawned. -/
def start_training (reg : Registry) (trainingId jobId : String) (totalEpochs : ℕ)
    (staging : Except String Unit) (launch : CmdResult) (now : ℕ) :
    Except String String × Registry × Bool :=
  match staging with
  | .error e => (.error e, reg, false)
  | .ok _ =>
    if launch.success then
      (.ok jobId,
        rinsert reg trainingId
          { jobId := jobId
            pid := pyStrip launch.stdout
            status := .running
            createdAt := now
            updatedAt := now
            progress := 0
            currentEpoch := 0
            totalEpochs := totalEpochs
            loss := none
            logs := [] },
        true)
    else (.error ("Failed to start training: " ++ launch.stderr), reg, false)

/-- One iteration of the `_monitor_training` while-loop (lines 544-571).
`ps` is the gateway result of the liveness probe, `tail` of the log tail.
Returns the registry afterwards and whether the loop exited. -/
def monitorCycle (reg : Registry) (id : String) (ps tail : CmdResult) (now : ℕ) :
    Registry × Bool :=
  match rlookup reg id with
  | none => (reg, true)
  | some job =>
    if job.status.isTerminal then (reg, true)
    else if job.pid ≠ "" ∧ ¬ps.success then
      (rupdate reg id (fun j => { j with status := .failed, updatedAt := now }), true)
    else (updateLogsReg reg id tail now, false)

/-! ### Fallback enhancement templates (`_basic_enhancement`, lines 636-671) -/

/-- The `template` entry of `enhancements[EnhancementType.REASONING]`. -/
def templateReasoning : String :=
  "Let's think step by step about this problem:\n\n\x7bprompt\x7d\n\nTo solve this effectively:\n1. First, I'll identify the key components\n2. Then, I'll analyze the relationships between them\n3. Next, I'll consider multiple solution approaches\n4. Finally, I'll evaluate and choose the best approach\n\nLet me work through this systematically:"

/-- The `template` entry of `enhancements[EnhancementType.LOGIC]`. -/
def templateLogic : String :=
  "Let's apply logical reasoning to analyze:\n\n\x7bprompt\x7d\n\nLogical analysis framework:\n1. Identify the core question or hypothesis\n2. Examine the available evidence or premises\n3. Apply logical reasoning to draw conclusions\n4. Test the validity of conclusions\n5. Consider alternative logical pathways\n\nLet me systematically work through this:"

/-- The `template` entry of `enhancements[EnhancementType.CREATIVITY]`. -/
def templateCreativity : String :=
  "Let's approach this creatively and consider multiple perspectives:\n\n\x7bprompt\x7d\n\nCreative exploration strategy:\n1. Brainstorm diverse approaches without initial judgment\n2. Consider analogies from different domains\n3. Explore 'what if' scenarios\n4. Combine ideas in unexpected ways\n5. Challenge assumptions and conventional thinking\n\nLet me explore this creatively:"

/-- The `template` entry of `enhancements[EnhancementType.ANALYSIS]`. -/
def templateAnalysis : String :=
  "Let's systematically analyze the following:\n\n\x7bprompt\x7d\n\nAnalytical framework:\n1. Define the scope and boundaries of analysis\n2. Break down into key components\n3. Examine relationships and interdependencies\n4. Identify patterns, trends, and anomalies\n5. Synthesize findings into actionable insights\n\nLet me conduct a thorough analysis:"

/-- The `template` entry of `enhancements[EnhancementType.PROBLEM_SOLVING]`. -/
def templateProblemSolving : String :=
  "Let's break down this problem into manageable steps:\n\n\x7bprompt\x7d\n\nProblem-solving methodology:\n1. Problem definition: Clearly articulate what needs to be solved\n2. Root cause analysis: Identify underlying causes\n3. Solution generation: Brainstorm multiple approaches\n4. Evaluation: Assess pros, cons, and feasibility\n5. Implementation planning: Create actionable steps\n6. Success metrics: Define how to measure progress\n\nLet me work through this systematically:"

/-- Template selection via `enhancements.get(enhancement_type, ...)`: all
five enum members are keys of the dict, so the default never fires for a
known category. -/
def templateOf : EnhancementType → String
  | .reasoning => templateReasoning
  | .logic => templateLogic
  | .creativity => templateCreativity
  | .analysis => templateAnalysis
  | .problem_solving => templateProblemSolving

/-- `_basic_enhancement`: `enhancement["template"].format(prompt=prompt)`. -/
def basic_enhancement (prompt : String) (ty : EnhancementType) : String :=
  pyFormat (templateOf ty) prompt

/-! ### Non-streaming enhancement (`enhance_prompt`, lines 157-187) -/

/-- Outcome of the awaited `ec2_connector.generate_response` call as seen
by `enhance_prompt`: either the call raised, or it returned a result dict
with `success` and `response`/`error` fields. -/
inductive GenOutcome where
  | raised (msg : String)
  | returned (success : Bool) (response : String) (err : String)
deriving DecidableEq, Repr

/-- Whether the gateway call failed (raised, or reported success=false). -/
def genFailed : GenOutcome → Bool
  | .raised _ => true
  | .returned success _ _ => !success

/-- The try-body of `enhance_prompt` (lines 164-183): it computes a value
or propagates an exception (`.error`). -/
def enhanceBody (prompt : String) (ty : EnhancementType) (g : GenOutcome) :
    Except String String :=
  match g with
  | .raised m => .error m
  | .returned success response _ =>
    if success then
      let r := pyStrip response
      let r :=
        if pyIn "Enhanced version:" r then
          pyStrip ((pySplitOnStr r "Enhanced version:").getLastD "")
        else r
      if r = "" then .ok (basic_enhancement prompt ty) else .ok r
    else .ok (basic_enhancement prompt ty)

/-- `enhance_prompt`: the `except` handler of lines 185-187 converts any
exception escaping the try-body into the fallback.  The returned `Except`
is what the caller observes: an `.error` would be a raised exception. -/
def enhance_prompt (prompt : String) (ty : EnhancementType) (g : GenOutcome) :
    Except String String :=
  match enhanceBody prompt ty g with
  | .error _ => .ok (basic_enhancement prompt ty)
  | .ok s => .ok s

/-! ### Streaming enhancement (`enhance_prompt_stream`, lines 189-285,
and the endpoint wrapper in `main.py` lines 172-204) -/

/-- The tagged union of events yielded to the consumer. -/
inductive Event where
  | status (message : String) (progress : ℚ)
  | content (content : String) (progress : ℚ)
  | error (message : String) (progress : ℚ)
  | complete
deriving DecidableEq, Repr

/-- Terminal events of the GenerationEvent protocol. -/
def isTerminalEvent : Event → Bool
  | .error _ _ => true
  | .complete => true
  | _ => false

/-- One chunk of `generate_response_stream` as read by the trainer:
`success`, `content` (`chunk.get("content", "")`) and the value of
`chunk.get("progress", 0)`. -/
structure SChunk where
  success : Bool
  content : String
  progress : ℚ
  done : Bool
deriving DecidableEq, Repr

/-- Progress mapping of line 226: `min(90, 20 + (progress * 0.7))`. -/
def mapProg (p : ℚ) : ℚ :=
  min 90 (20 + p * (7 / 10))

/-- The `async for chunk in ...generate_response_stream(...)` loop (lines
218-230): successful chunks become content events; the first
non-successful chunk breaks out (second component `false`); exhausting
the stream reaches the `else` clause (second component `true`). -/
def primaryLoop : List SChunk → List Event × Bool
  | [] => ([], true)
  | c :: rest =>
    if c.success then
      let r := primaryLoop rest
      (Event.content c.content (mapProg c.progress) :: r.1, r.2)
    else ([], false)

/-- One fallback chunk event (lines 256-268): words `i` to `i+cs`, joined
with spaces, a leading space when `i > 0`, progress
`min(90, 30 + (i / len(words)) * 60)`. -/
def fallbackChunkEvent (words : List String) (cs i : ℕ) : Event :=
  let cw := (words.drop i).take cs
  let cc := joinSp cw
  let cc := if i > 0 then " " ++ cc else cc
  Event.content cc (min 90 (30 + ((i : ℚ) / (words.length : ℚ)) * 60))

/-- The simulated streaming of the fallback text (lines 252-270):
`words = enhanced_result.split()`, `chunk_size = max(1, len(words) // 10)`,
`for i in range(0, len(words), chunk_size)`. -/
def fallbackEvents (text : String) : List Event :=
  let words := pySplit text
  let cs := max 1 (words.length / 10)
  let m := (words.length + cs - 1) / cs
  (List.range m).map (fun k => fallbackChunkEvent words cs (k * cs))

/-- `ModelTrainer.enhance_prompt_stream`.  `chunks` is the sequence of
chunks the primary stream yields before either ending or (when
`streamRaised` is true) raising mid-iteration into the handler of lines
240-241; a non-success chunk switches to the fallback path without an
error event. -/
def enhance_prompt_stream (prompt : String) (ty : EnhancementType)
    (chunks : List SChunk) (streamRaised : Bool) : List Event :=
  let opening := [Event.status ("Analyzing prompt for " ++ ty.val ++ " enhancement...") 10,
    Event.status "Connecting to AI model..." 20]
  let r := primaryLoop chunks
  if r.2 ∧ ¬streamRaised then
    opening ++ r.1 ++ [Event.status "Enhancement completed!" 100]
  else
    opening ++ r.1
      ++ [Event.status "Using fallback enhancement method..." 30]
      ++ fallbackEvents (basic_enhancement prompt ty)
      ++ [Event.status "Enhancement completed!" 100]

/-- The `/prompt/enhance/stream` endpoint generator of `main.py` lines
178-191: an initial status event, the trainer's events, then exactly one
`complete` event. -/
def streamEndpoint (prompt : String) (ty : EnhancementType)
    (chunks : List SChunk) (streamRaised : Bool) : List Event :=
  Event.status "Starting enhancement..." 0
    :: enhance_prompt_stream prompt ty chunks streamRaised ++ [Event.complete]

/-! ### The gateway's own streams (`generate_response_stream`,
`ec2_connector.py` lines 300-352) -/

/-- One parsed JSON line of the Ollama streaming response as consumed by
the production branch: `chunk.get("response", "")` and
`chunk.get("done", False)`. -/
structure OllamaChunk where
  response : String
  done : Bool
deriving DecidableEq, Repr

/-- The development-mode `mock_response` string of line 307. -/
def mockText (prompt : String) : String :=
  "Enhanced version of your prompt:\n\n" ++ prompt
    ++ "\n\nThis is a more detailed and structured approach to your original question, designed to encourage deeper thinking and better reasoning."

/-- Development-mode stream (lines 306-319): the mock response is split
into words, each yielded as a successful chunk with progress
`(i + 1) / len(words) * 100`. -/
def devStream (prompt : String) : List SChunk :=
  let words := pySplit (mockText prompt)
  (List.range words.length).map (fun i =>
    { success := true
      content := words.getD i "" ++ " "
      progress := ((i : ℚ) + 1) / (words.length : ℚ) * 100
      done := i == words.length - 1 })

/-- Production-mode stream (lines 321-352): on a failed setup call a
single non-success chunk; otherwise each Ollama chunk is wrapped as a
successful chunk with no "progress" key (so the trainer's
`chunk.get("progress", 0)` reads 0). -/
def prodStream (setup : Except String (List OllamaChunk)) : List SChunk :=
  match setup with
  | .error _ => [{ success := false, content := "", progress := 0, done := true }]
  | .ok ochunks =>
    ochunks.map (fun oc =>
      { success := true, content := oc.response, progress := 0, done := oc.done })

/-- The progress values carried by the `content` events of a sequence. -/
def contentProgs (es : List Event) : List ℚ :=
  es.filterMap (fun e => match e with | .content _ p => some p | _ => none)

/-! ### Registry lemmas -/

theorem rlookup_rupdate (reg : Registry) (id : String) (f : JobInfo → JobInfo) :
    rlookup (rupdate reg id f) id = (rlookup reg id).map f := by
  induction reg with
  | nil => rfl
  | cons p t ih =>
    obtain ⟨k, j⟩ := p
    by_cases hk : k = id
    · subst hk
      simp [rupdate, rlookup, ih]
    · simp [rupdate, rlookup, hk, ih]

/-! ### Status preservation by the per-line parser -/

theorem epochStep_status (j : JobInfo) (l : String) :
    (epochStep j l).status = j.status := by
  unfold epochStep
  split
  · split
    · rfl
    · split <;> rfl
  · rfl

theorem lossStep_status (j : JobInfo) (l : String) :
    (lossStep j l).status = j.status := by
  unfold lossStep
  split
  · split <;> rfl
  · rfl

theorem parseLine_status (j : JobInfo) (l : String) :
    (parseLine j l).status = j.status := by
  unfold parseLine
  rw [lossStep_status, epochStep_status]

theorem foldl_parseLine_status (logs : List String) (j : JobInfo) :
    (logs.foldl parseLine j).status = j.status := by
  induction logs generalizing j with
  | nil => rfl
  | cons l t ih => rw [List.foldl_cons, ih, parseLine_status]

/-! ### Status behaviour of the log refresh -/

theorem updateLogsJob_of_guard_false (job : JobInfo) (tail : CmdResult) (now : ℕ)
    (h : ¬(tail.success = true ∧ pyStrip tail.stdout ≠ "")) :
    updateLogsJob job tail now = job := by
  unfold updateLogsJob
  rw [if_neg]
  intro hc
  exact h ⟨by simpa using hc.1, hc.2⟩

theorem any_eq_false_of_all_not {p : String → Bool} {l : List String}
    (h : l.all (fun x => !(p x)) = true) : l.any p = false := by
  cases hA : l.any p with
  | false => rfl
  | true =>
    obtain ⟨x, hx, hp⟩ := List.any_eq_true.mp hA
    have := List.all_eq_true.mp h x hx
    simp [hp] at this

theorem updateFromLines_status_of_no_completion (job : JobInfo) (logs : List String) (now : ℕ)
    (h : logs.any (fun l => pyIn "Training completed" l) = false) :
    (updateFromLines job logs now).status = job.status := by
  unfold updateFromLines
  simp only [h, Bool.false_eq_true, if_false]
  exact foldl_parseLine_status ..

theorem updateLogsJob_status_of_no_completion (job : JobInfo) (tail : CmdResult) (now : ℕ)
    (h : (linesOf tail.stdout).all (fun l => !(pyIn "Training completed" l)) = true) :
    (updateLogsJob job tail now).status = job.status := by
  unfold updateLogsJob
  split
  · exact updateFromLines_status_of_no_completion _ _ _ (any_eq_false_of_all_not h)
  · rfl

theorem completion_line_trim (s l : String) (hl : l ∈ linesOf s)
    (hc : pyIn "Training completed" l = true) : pyStrip s ≠ "" := by
  intro h
  have ht : trimL s.toList = [] := congrArg String.toList h
  unfold linesOf at hl
  rw [ht] at hl
  simp only [splitOnL, splitOnFuel, List.map] at hl
  simp only [List.mem_singleton] at hl
  subst hl
  exact absurd hc (by decide)

theorem updateLogsJob_status_of_completion (job : JobInfo) (tail : CmdResult) (now : ℕ)
    (hs : tail.success = true)
    (h : (linesOf tail.stdout).any (fun l => pyIn "Training completed" l) = true) :
    (updateLogsJob job tail now).status = .completed ∧
      (updateLogsJob job tail now).progress = 100 := by
  obtain ⟨l, hl, hp⟩ := List.any_eq_true.mp h
  have htrim : pyStrip tail.stdout ≠ "" := completion_line_trim _ _ hl hp
  unfold updateLogsJob
  rw [if_pos ⟨by simp [hs], htrim⟩]
  unfold updateFromLines
  rw [if_pos h]
  exact ⟨rfl, rfl⟩

/-! ### Content-progress bookkeeping -/

theorem contentProgs_cons_status (m : String) (p : ℚ) (es : List Event) :
    contentProgs (Event.status m p :: es) = contentProgs es := rfl

theorem contentProgs_cons_content (c : String) (p : ℚ) (es : List Event) :
    contentProgs (Event.content c p :: es) = p :: contentProgs es := rfl

theorem contentProgs_append (a b : List Event) :
    contentProgs (a ++ b) = contentProgs a ++ contentProgs b :=
  List.filterMap_append a b _

theorem contentProgs_map_content {α : Type} (l : List α) (c : α → String) (p : α → ℚ) :
    contentProgs (l.map fun x => Event.content (c x) (p x)) = l.map p := by
  induction l with
  | nil => rfl
  | cons a t ih => simp only [List.map_cons, contentProgs_cons_content, ih]

theorem primaryLoop_of_success (chunks : List SChunk) (h : ∀ c ∈ chunks, c.success = true) :
    primaryLoop chunks =
      (chunks.map (fun c => Event.content c.content (mapProg c.progress)), true) := by
  induction chunks with
  | nil => rfl
  | cons c t ih =>
    have hc : c.success = true := h c (by simp)
    have ht := ih (fun x hx => h x (List.mem_cons_of_mem _ hx))
    simp [primaryLoop, hc, ht]

theorem primaryLoop_no_terminal (chunks : List SChunk) :
    ∀ e ∈ (primaryLoop chunks).1, isTerminalEvent e = false := by
  induction chunks with
  | nil =>
    intro e he
    simp [primaryLoop] at he
  | cons c t ih =>
    intro e he
    by_cases hc : c.success = true
    · simp only [primaryLoop, hc, if_true] at he
      rcases List.mem_cons.mp he with he | he
      · subst he; rfl
      · exact ih e he
    · simp [primaryLoop, hc] at he

theorem fallbackEvents_no_terminal (t : String) :
    ∀ e ∈ fallbackEvents t, isTerminalEvent e = false := by
  intro e he
  unfold fallbackEvents at he
  obtain ⟨k, _, rfl⟩ := List.mem_map.mp he
  rfl

theorem stream_no_terminal (p : String) (ty : EnhancementType) (chunks : List SChunk)
    (r : Bool) : ∀ e ∈ enhance_prompt_stream p ty chunks r, isTerminalEvent e = false := by
  intro e he
  unfold enhance_prompt_stream at he
  dsimp only at he
  split at he
  · simp only [List.append_assoc, List.cons_append, List.nil_append, List.mem_cons,
      List.mem_append, List.mem_singleton, List.not_mem_nil, or_false, or_assoc] at he
    rcases he with rfl | rfl | he | rfl
    · rfl
    · rfl
    · exact primaryLoop_no_terminal chunks e he
    · rfl
  · simp only [List.append_assoc, List.cons_append, List.nil_append, List.mem_cons,
      List.mem_append, List.mem_singleton, List.not_mem_nil, or_false, or_assoc] at he
    rcases he with rfl | rfl | he | rfl | he | rfl
    · rfl
    · rfl
    · exact primaryLoop_no_terminal chunks e he
    · rfl
    · exact fallbackEvents_no_terminal _ e he
    · rfl

/-! ### Chain helpers -/

theorem mem_of_getLastQ {α : Type} {l : List α} {x : α} (h : x ∈ l.getLast?) : x ∈ l := by
  obtain ⟨hne, rfl⟩ := List.mem_getLast?_eq_getLast h
  exact List.getLast_mem hne

theorem chain'_map_range (f : ℕ → ℚ) (hf : ∀ a b : ℕ, a ≤ b → f a ≤ f b) (m : ℕ) :
    List.Chain' (· ≤ ·) ((List.range m).map f) := by
  rw [List.chain'_map]
  exact (List.pairwise_lt_range m).chain'.imp (fun a b hab => hf a b hab.le)

theorem chain'_map_const {α : Type} (c : ℚ) (f : α → ℚ) (hf : ∀ x, f x = c) :
    (l : List α) → List.Chain' (· ≤ ·) (l.map f)
  | [] => List.chain'_nil
  | [_] => List.chain'_singleton _
  | a :: b :: t =>
    List.Chain'.cons (by rw [hf a, hf b]) (chain'_map_const c f hf (b :: t))

theorem mapProg_mono {p q : ℚ} (h : p ≤ q) : mapProg p ≤ mapProg q := by
  unfold mapProg
  have h1 := mul_le_mul_of_nonneg_right h (by norm_num : (0 : ℚ) ≤ 7 / 10)
  exact min_le_min le_rfl (by linarith)

theorem contentProgs_cons_fce (words : List String) (cs i : ℕ) (es : List Event) :
    contentProgs (fallbackChunkEvent words cs i :: es) =
      (min 90 (30 + ((i : ℚ) / (words.length : ℚ)) * 60)) :: contentProgs es := rfl

theorem contentProgs_map_fce (words : List String) (cs : ℕ) (g : ℕ → ℕ) (ks : List ℕ) :
    contentProgs (ks.map fun i => fallbackChunkEvent words cs (g i)) =
      ks.map fun i => min 90 (30 + (((g i : ℕ) : ℚ) / (words.length : ℚ)) * 60) := by
  induction ks with
  | nil => rfl
  | cons a t ih =>
    simp only [List.map_cons, contentProgs_cons_fce, ih]

theorem fallback_chain_gen (words : List String) (cs m : ℕ) :
    List.Chain' (· ≤ ·)
      (contentProgs ((List.range m).map fun k => fallbackChunkEvent words cs (k * cs))) := by
  rw [contentProgs_map_fce words cs (fun k => k * cs) (List.range m)]
  apply chain'_map_range
  intro a b hab
  have h1 : ((a * cs : ℕ) : ℚ) ≤ ((b * cs : ℕ) : ℚ) := by
    exact_mod_cast Nat.mul_le_mul hab (le_refl cs)
  have h2 : ((a * cs : ℕ) : ℚ) / (words.length : ℚ) ≤ ((b * cs : ℕ) : ℚ) / (words.length : ℚ) := by
    rw [div_eq_mul_inv, div_eq_mul_inv]
    exact mul_le_mul_of_nonneg_right h1 (inv_nonneg.mpr (Nat.cast_nonneg _))
  have h3 := mul_le_mul_of_nonneg_right h2 (by norm_num : (0 : ℚ) ≤ 60)
  exact min_le_min le_rfl (by linarith)

theorem fallback_ge_gen (words : List String) (cs m : ℕ) :
    ∀ q ∈ contentProgs ((List.range m).map fun k => fallbackChunkEvent words cs (k * cs)),
      30 ≤ q := by
  rw [contentProgs_map_fce words cs (fun k => k * cs) (List.range m)]
  intro q hq
  obtain ⟨k, _, rfl⟩ := List.mem_map.mp hq
  have h0 : (0 : ℚ) ≤ (((k * cs : ℕ) : ℚ) / (words.length : ℚ)) * 60 := by positivity
  exact le_min (by norm_num) (by linarith)

theorem fallbackEvents_chain (text : String) :
    List.Chain' (· ≤ ·) (contentProgs (fallbackEvents text)) := by
  unfold fallbackEvents
  dsimp only
  exact fallback_chain_gen ..

theorem fallbackEvents_ge (text : String) :
    ∀ q ∈ contentProgs (fallbackEvents text), 30 ≤ q := by
  unfold fallbackEvents
  dsimp only
  exact fallback_ge_gen _ _ _

theorem devStream_success (p : String) : ∀ c ∈ devStream p, c.success = true := by
  intro c hc
  unfold devStream at hc
  dsimp only at hc
  obtain ⟨i, _, rfl⟩ := List.mem_map.mp hc
  rfl

theorem prodStream_ok_success (och : List OllamaChunk) :
    ∀ c ∈ prodStream (.ok och), c.success = true := by
  intro c hc
  unfold prodStream at hc
  obtain ⟨oc, _, rfl⟩ := List.mem_map.mp hc
  rfl

theorem contentProgs_endpoint (p : String) (ty : EnhancementType) (chunks : List SChunk)
    (r : Bool) :
    contentProgs (streamEndpoint p ty chunks r) =
      contentProgs (enhance_prompt_stream p ty chunks r) := by
  unfold streamEndpoint
  rw [contentProgs_append, contentProgs_cons_status]
  simp [contentProgs]

theorem contentProgs_stream_primary (p : String) (ty : EnhancementType)
    (chunks : List SChunk) (hsucc : ∀ c ∈ chunks, c.success = true) :
    contentProgs (enhance_prompt_stream p ty chunks false) =
      chunks.map (fun c => mapProg c.progress) := by
  unfold enhance_prompt_stream
  dsimp only
  rw [primaryLoop_of_success chunks hsucc]
  split
  case isTrue h =>
    simp only [contentProgs_append, contentProgs_cons_status, contentProgs_map_content]
    simp [contentProgs]
  case isFalse h => exact absurd ⟨rfl, by simp⟩ h

theorem contentProgs_stream_raised (p : String) (ty : EnhancementType)
    (chunks : List SChunk) (hsucc : ∀ c ∈ chunks, c.success = true) :
    contentProgs (enhance_prompt_stream p ty chunks true) =
      chunks.map (fun c => mapProg c.progress)
        ++ contentProgs (fallbackEvents (basic_enhancement p ty)) := by
  unfold enhance_prompt_stream
  dsimp only
  rw [primaryLoop_of_success chunks hsucc]
  split
  case isTrue h => simp at h
  case isFalse h =>
    simp only [contentProgs_append, contentProgs_cons_status, contentProgs_map_content]
    simp [contentProgs]

theorem prodStream_ok_progress (och : List OllamaChunk) :
    ∀ c ∈ prodStream (.ok och), c.progress = 0 := by
  intro c hc
  unfold prodStream at hc
  obtain ⟨oc, _, rfl⟩ := List.mem_map.mp hc
  rfl

theorem contentProgs_stream_fallback_only (p : String) (ty : EnhancementType)
    (chunks : List SChunk) (raised : Bool) (hfail : primaryLoop chunks = ([], false)) :
    contentProgs (enhance_prompt_stream p ty chunks raised) =
      contentProgs (fallbackEvents (basic_enhancement p ty)) := by
  unfold enhance_prompt_stream
  dsimp only
  rw [hfail]
  split
  case isTrue h => simp at h
  case isFalse h =>
    simp only [contentProgs_append, contentProgs_cons_status]
    simp [contentProgs]

/-! ### Claim theorems -/

/-- Claim C2 (code bug): running the log refresh on the single line
"Epoch 2/5 - Loss: 1.2345" with totalEpochs = 5 leaves `currentEpoch` and
`progress` untouched, because `int("Epoch")` raises and the bare `except`
swallows it; only `loss` is updated (to 1.2345) and the line is stored.
The spec expects currentEpoch = 2 and progress = 40. -/
theorem C2_epoch_parse_code_bug :
    epochParse "Epoch 2/5 - Loss: 1.2345" = none ∧
    updateLogsJob
        { jobId := "j", pid := "p", status := .running, createdAt := 0, updatedAt := 0,
          progress := 0, currentEpoch := 0, totalEpochs := 5, loss := none, logs := [] }
        { success := true, stdout := "Epoch 2/5 - Loss: 1.2345", stderr := "" } 7 =
      { jobId := "j", pid := "p", status := .running, createdAt := 0, updatedAt := 7,
        progress := 0, currentEpoch := 0, totalEpochs := 5, loss := some (mkRat 12345 10000),
        logs := ["Epoch 2/5 - Loss: 1.2345"] } := by
  decide

/-- Claim C5: with a gateway reporting success = false, `enhance_prompt`
returns exactly the fixed fallback template of the requested category with
the prompt substituted for the placeholder, character for character. -/
theorem C5_enhance_prompt_fallback_exact (prompt response err : String)
    (ty : EnhancementType) :
    enhance_prompt prompt ty (.returned false response err) =
      .ok (pyFormat (templateOf ty) prompt) := rfl

/-- Claim C4: `enhance_prompt` always returns normally (never raises), and
whenever the gateway call raised or reported failure the returned value is
the deterministic fallback template. -/
theorem C4_enhance_prompt_never_raises (prompt : String) (ty : EnhancementType)
    (g : GenOutcome) :
    (∃ s, enhance_prompt prompt ty g = .ok s) ∧
    (genFailed g = true →
      enhance_prompt prompt ty g = .ok (basic_enhancement prompt ty)) := by
  constructor
  · unfold enhance_prompt
    cases henh : enhanceBody prompt ty g with
    | error e => exact ⟨_, rfl⟩
    | ok s => exact ⟨_, rfl⟩
  · intro h
    cases g with
    | raised m => rfl
    | returned success response err =>
      cases success with
      | false => rfl
      | true => simp [genFailed] at h

/-- Witness for C4 at a concrete raising gateway. -/
theorem C4_enhance_prompt_never_raises_witness :
    enhance_prompt "p" .creativity (.raised "boom") =
      .ok (basic_enhancement "p" .creativity) :=
  (C4_enhance_prompt_never_raises "p" .creativity (.raised "boom")).2 rfl

/-- Claim C7: when the remote launch fails (a staging step raised, or the
launch command reported success = false), `start_training` returns an
error, the registry is unchanged, and no monitor task is spawned. -/
theorem C7_start_training_launch_failure (reg : Registry) (tid jid : String) (te : ℕ)
    (staging : Except String Unit) (launch : CmdResult) (now : ℕ)
    (h : staging.isOk = false ∨ launch.success = false) :
    (start_training reg tid jid te staging launch now).1.isOk = false ∧
    (start_training reg tid jid te staging launch now).2.1 = reg ∧
    (start_training reg tid jid te staging launch now).2.2 = false := by
  cases staging with
  | error e => exact ⟨rfl, rfl, rfl⟩
  | ok u =>
    rcases h with hs | hl
    · exact absurd hs (by simp [Except.isOk, Except.toBool])
    · unfold start_training
      rw [if_neg (by simp [hl])]
      exact ⟨rfl, rfl, rfl⟩

/-- Witness for C7 at a concrete failing launch. -/
theorem C7_start_training_launch_failure_witness :
    (start_training [] "t" "j" 3 (.ok ())
        { success := false, stdout := "", stderr := "boom" } 0).1.isOk = false ∧
    (start_training [] "t" "j" 3 (.ok ())
        { success := false, stdout := "", stderr := "boom" } 0).2.1 = [] ∧
    (start_training [] "t" "j" 3 (.ok ())
        { success := false, stdout := "", stderr := "boom" } 0).2.2 = false :=
  C7_start_training_launch_failure [] "t" "j" 3 (.ok ())
    { success := false, stdout := "", stderr := "boom" } 0 (Or.inr rfl)

/-- Claim C8: `stop_training` on an unknown id fails with the NotFound
error; on a known Running id with a live pid and a successful kill it
transitions the record to Stopped, and a second call succeeds and leaves
the status at Stopped. -/
theorem C8_stop_training_spec (reg : Registry) (id : String) (job : JobInfo)
    (k1 k2 : CmdResult) (t1 t2 : ℕ) :
    (rlookup reg id = none →
      stop_training reg id k1 t1 = .error ("Training job " ++ id ++ " not found")) ∧
    (rlookup reg id = some job → job.status = .running → job.pid ≠ "" →
      k1.success = true → k2.success = true →
      stop_training reg id k1 t1 = .ok (rupdate reg id (stopMark t1)) ∧
      rlookup (rupdate reg id (stopMark t1)) id = some (stopMark t1 job) ∧
      (stopMark t1 job).status = .stopped ∧
      stop_training (rupdate reg id (stopMark t1)) id k2 t2 =
        .ok (rupdate (rupdate reg id (stopMark t1)) id (stopMark t2)) ∧
      rlookup (rupdate (rupdate reg id (stopMark t1)) id (stopMark t2)) id =
        some (stopMark t2 (stopMark t1 job)) ∧
      (stopMark t2 (stopMark t1 job)).status = .stopped) := by
  constructor
  · intro h
    unfold stop_training
    rw [h]
  · intro hj hrun hpid hk1 hk2
    have hl1 : rlookup (rupdate reg id (stopMark t1)) id = some (stopMark t1 job) := by
      rw [rlookup_rupdate, hj]; rfl
    have hl2 : rlookup (rupdate (rupdate reg id (stopMark t1)) id (stopMark t2)) id =
        some (stopMark t2 (stopMark t1 job)) := by
      rw [rlookup_rupdate, hl1]; rfl
    refine ⟨?_, hl1, rfl, ?_, hl2, rfl⟩
    · unfold stop_training
      rw [hj]
      dsimp only
      rw [if_pos hpid, if_pos hk1]
    · unfold stop_training
      rw [hl1]
      dsimp only
      rw [if_pos (show (stopMark t1 job).pid ≠ "" from hpid), if_pos hk2]

/-- Witness for C8 at a concrete one-job registry. -/
theorem C8_stop_training_spec_witness :
    stop_training
        [("t", { jobId := "j", pid := "9", status := .running, createdAt := 0, updatedAt := 0,
                 progress := 0, currentEpoch := 0, totalEpochs := 2, loss := none,
                 logs := [] })] "t" { success := true, stdout := "", stderr := "" } 1 =
      .ok (rupdate
        [("t", { jobId := "j", pid := "9", status := .running, createdAt := 0, updatedAt := 0,
                 progress := 0, currentEpoch := 0, totalEpochs := 2, loss := none,
                 logs := [] })] "t" (stopMark 1)) :=
  ((C8_stop_training_spec
      [("t", { jobId := "j", pid := "9", status := .running, createdAt := 0, updatedAt := 0,
               progress := 0, currentEpoch := 0, totalEpochs := 2, loss := none,
               logs := [] })] "t"
      { jobId := "j", pid := "9", status := .running, createdAt := 0, updatedAt := 0,
        progress := 0, currentEpoch := 0, totalEpochs := 2, loss := none, logs := [] }
      { success := true, stdout := "", stderr := "" }
      { success := true, stdout := "", stderr := "" } 1 2).2
    rfl rfl (by decide) rfl rfl).1

/-- Claim C10: on a known id with a live pid, when the kill command
reports success = false, `stop_training` returns normally and leaves the
registry (hence the record's status and updated_at) entirely unchanged. -/
theorem C10_stop_training_kill_failure (reg : Registry) (id : String) (job : JobInfo)
    (kill : CmdResult) (now : ℕ)
    (hj : rlookup reg id = some job) (hp : job.pid ≠ "") (hk : kill.success = false) :
    stop_training reg id kill now = .ok reg := by
  unfold stop_training
  rw [hj]
  dsimp only
  rw [if_pos hp, if_neg (by simp [hk])]

/-- Witness for C10 at a concrete one-job registry. -/
theorem C10_stop_training_kill_failure_witness :
    stop_training
        [("t", { jobId := "j", pid := "9", status := .running, createdAt := 0, updatedAt := 0,
                 progress := 0, currentEpoch := 0, totalEpochs := 2, loss := none,
                 logs := [] })] "t" { success := false, stdout := "", stderr := "no such process" } 4 =
      .ok [("t", { jobId := "j", pid := "9", status := .running, createdAt := 0, updatedAt := 0,
                   progress := 0, currentEpoch := 0, totalEpochs := 2, loss := none,
                   logs := [] })] :=
  C10_stop_training_kill_failure _ "t"
    { jobId := "j", pid := "9", status := .running, createdAt := 0, updatedAt := 0,
      progress := 0, currentEpoch := 0, totalEpochs := 2, loss := none, logs := [] }
    { success := false, stdout := "", stderr := "no such process" } 4 rfl (by decide) rfl

/-- Claim C9: whenever the refreshed batch contains a line with the
case-sensitive substring "Training completed", the refresh sets the
status to Completed and forces progress = 100, overriding any
epoch-derived progress from the same batch. -/
theorem C9_training_completed_override (job : JobInfo) (tail : CmdResult) (now : ℕ)
    (l : String) (hs : tail.success = true) (hl : l ∈ linesOf tail.stdout)
    (hc : pyIn "Training completed" l = true) :
    (updateLogsJob job tail now).status = .completed ∧
      (updateLogsJob job tail now).progress = 100 :=
  updateLogsJob_status_of_completion job tail now hs (List.any_eq_true.mpr ⟨l, hl, hc⟩)

/-- Witness for C9 at a concrete log tail. -/
theorem C9_training_completed_override_witness :
    (updateLogsJob
        { jobId := "j", pid := "p", status := .running, createdAt := 0, updatedAt := 0,
          progress := 40, currentEpoch := 2, totalEpochs := 5, loss := none, logs := [] }
        { success := true, stdout := "Epoch 5/5 - Loss: 0.2\nTraining completed. Model saved",
          stderr := "" } 3).status = .completed ∧
    (updateLogsJob
        { jobId := "j", pid := "p", status := .running, createdAt := 0, updatedAt := 0,
          progress := 40, currentEpoch := 2, totalEpochs := 5, loss := none, logs := [] }
        { success := true, stdout := "Epoch 5/5 - Loss: 0.2\nTraining completed. Model saved",
          stderr := "" } 3).progress = 100 :=
  C9_training_completed_override _ _ 3 "Training completed. Model saved" rfl
    (by decide) (by decide)

/-- Claim C1 (counterexample): on a job whose status is already terminal
(Completed), `stop_training` with a successful kill command changes the
status to Stopped, so a terminal status is not immutable. -/
theorem C1_terminal_status_counterexample :
    TrainingStatus.completed.isTerminal = true ∧
    stop_training
        [("t-1", { jobId := "j", pid := "4242", status := .completed, createdAt := 0,
                   updatedAt := 0, progress := 100, currentEpoch := 0, totalEpochs := 3,
                   loss := none, logs := [] })] "t-1"
        { success := true, stdout := "", stderr := "" } 5 =
      .ok [("t-1", { jobId := "j", pid := "4242", status := .stopped, createdAt := 0,
                     updatedAt := 5, progress := 100, currentEpoch := 0, totalEpochs := 3,
                     loss := none, logs := [] })] ∧
    TrainingStatus.stopped ≠ TrainingStatus.completed :=
  ⟨rfl, rfl, by decide⟩

/-- Claim C1 (amended): once a job's status is terminal, the monitor
cycle exits without touching the record, and a status read
(`get_training_status` / log refresh) returns the same status, unless the
refreshed batch contains a "Training completed" line, which sets
Completed; `stop_training` leaves the record unchanged when the kill
fails or the pid is empty, but a successful kill sets Stopped. -/
theorem C1_terminal_status_amended (reg : Registry) (id : String) (job : JobInfo)
    (ps tail kill : CmdResult) (now : ℕ)
    (hj : rlookup reg id = some job) (hterm : job.status.isTerminal = true) :
    monitorCycle reg id ps tail now = (reg, true) ∧
    ((linesOf tail.stdout).all (fun l => !(pyIn "Training completed" l)) = true →
      (updateLogsJob job tail now).status = job.status ∧
      get_training_status reg id tail now =
        .ok (rupdate reg id (fun j => updateLogsJob j tail now), updateLogsJob job tail now)) ∧
    (kill.success = false ∨ job.pid = "" → stop_training reg id kill now = .ok reg) ∧
    (job.pid ≠ "" → kill.success = true →
      stop_training reg id kill now = .ok (rupdate reg id (stopMark now)) ∧
      (stopMark now job).status = .stopped) ∧
    (tail.success = true →
      (linesOf tail.stdout).any (fun l => pyIn "Training completed" l) = true →
      (updateLogsJob job tail now).status = .completed) := by
  refine ⟨?_, ?_, ?_, ?_, ?_⟩
  · unfold monitorCycle
    rw [hj]
    dsimp only
    rw [if_pos hterm]
  · intro hall
    refine ⟨updateLogsJob_status_of_no_completion _ _ _ hall, ?_⟩
    unfold get_training_status
    rw [hj]
  · intro h
    unfold stop_training
    rw [hj]
    dsimp only
    rcases h with hk | hp
    · by_cases hpid : job.pid ≠ ""
      · rw [if_pos hpid, if_neg (by simp [hk])]
      · rw [if_neg hpid]
    · rw [if_neg (by simp [hp])]
  · intro hpid hk
    refine ⟨?_, rfl⟩
    unfold stop_training
    rw [hj]
    dsimp only
    rw [if_pos hpid, if_pos hk]
  · intro hs hany
    exact (updateLogsJob_status_of_completion job tail now hs hany).1

/-- Witness for C1's amended theorem at a concrete Stopped job. -/
theorem C1_terminal_status_amended_witness :
    monitorCycle
        [("t", { jobId := "j", pid := "9", status := .stopped, createdAt := 0, updatedAt := 0,
                 progress := 50, currentEpoch := 1, totalEpochs := 2, loss := none,
                 logs := [] })] "t"
        { success := true, stdout := "", stderr := "" }
        { success := true, stdout := "still running fine", stderr := "" } 9 =
      ([("t", { jobId := "j", pid := "9", status := .stopped, createdAt := 0, updatedAt := 0,
                progress := 50, currentEpoch := 1, totalEpochs := 2, loss := none,
                logs := [] })], true) :=
  (C1_terminal_status_amended
    [("t", { jobId := "j", pid := "9", status := .stopped, createdAt := 0, updatedAt := 0,
             progress := 50, currentEpoch := 1, totalEpochs := 2, loss := none,
             logs := [] })] "t"
    { jobId := "j", pid := "9", status := .stopped, createdAt := 0, updatedAt := 0,
      progress := 50, currentEpoch := 1, totalEpochs := 2, loss := none, logs := [] }
    { success := true, stdout := "", stderr := "" }
    { success := true, stdout := "still running fine", stderr := "" }
    { success := true, stdout := "", stderr := "" } 9 rfl rfl).1

/-- Claim C3: every event sequence delivered by the streaming endpoint
contains exactly one terminal event, it is `complete`, and it is the last
element of the sequence, for every gateway chunk stream and whether or
not the primary stream raised mid-iteration. -/
theorem C3_stream_single_terminal (prompt : String) (ty : EnhancementType)
    (chunks : List SChunk) (raised : Bool) :
    (streamEndpoint prompt ty chunks raised).filter isTerminalEvent = [Event.complete] ∧
    (streamEndpoint prompt ty chunks raised).getLast? = some Event.complete := by
  constructor
  · unfold streamEndpoint
    rw [List.filter_append]
    have h1 : (Event.status "Starting enhancement..." 0
        :: enhance_prompt_stream prompt ty chunks raised).filter isTerminalEvent = [] := by
      rw [List.filter_eq_nil_iff]
      intro e he
      rcases List.mem_cons.mp he with rfl | he
      · simp [isTerminalEvent]
      · simp [stream_no_terminal prompt ty chunks raised e he]
    rw [h1]
    rfl
  · unfold streamEndpoint
    exact List.getLast?_concat _

/-- Claim C6: across the development-mode gateway stream (the primary
path) and every production-mode gateway stream (primary chunks, the
fallback path after a failed setup, and a mid-stream switch to the
fallback after an exception), the progress values of the `content` events
form a non-decreasing sequence. -/
theorem C6_stream_progress_monotone (prompt : String) (ty : EnhancementType)
    (setup : Except String (List OllamaChunk)) (raised : Bool) :
    List.Chain' (· ≤ ·)
      (contentProgs (streamEndpoint prompt ty (devStream prompt) false)) ∧
    List.Chain' (· ≤ ·)
      (contentProgs (streamEndpoint prompt ty (prodStream setup) raised)) := by
  constructor
  · rw [contentProgs_endpoint,
      contentProgs_stream_primary _ _ _ (devStream_success prompt)]
    unfold devStream
    dsimp only
    rw [List.map_map]
    apply chain'_map_range
    intro a b hab
    dsimp only [Function.comp]
    apply mapProg_mono
    have hc : ((a : ℚ) + 1) ≤ ((b : ℚ) + 1) := by
      have := (Nat.cast_le (α := ℚ)).mpr hab
      linarith
    have hd : ((a : ℚ) + 1) / ((pySplit (mockText prompt)).length : ℚ) ≤
        ((b : ℚ) + 1) / ((pySplit (mockText prompt)).length : ℚ) := by
      rw [div_eq_mul_inv, div_eq_mul_inv]
      exact mul_le_mul_of_nonneg_right hc (inv_nonneg.mpr (Nat.cast_nonneg _))
    exact mul_le_mul_of_nonneg_right hd (by norm_num)
  · cases setup with
    | error e =>
      rw [contentProgs_endpoint,
        contentProgs_stream_fallback_only prompt ty (prodStream (.error e)) raised rfl]
      exact fallbackEvents_chain _
    | ok och =>
      cases raised with
      | false =>
        rw [contentProgs_endpoint,
          contentProgs_stream_primary _ _ _ (prodStream_ok_success och)]
        unfold prodStream
        rw [List.map_map]
        exact chain'_map_const (mapProg 0) _ (fun _ => rfl) och
      | true =>
        rw [contentProgs_endpoint,
          contentProgs_stream_raised _ _ _ (prodStream_ok_success och)]
        unfold prodStream
        rw [List.map_map]
        apply List.Chain'.append
        · exact chain'_map_const (mapProg 0) _ (fun _ => rfl) och
        · exact fallbackEvents_chain _
        · intro x hx y hy
          have hx2 := mem_of_getLastQ hx
          obtain ⟨oc, _, rfl⟩ := List.mem_map.mp hx2
          have hy2 : 30 ≤ y :=
            fallbackEvents_ge _ y (List.mem_of_mem_head? hy)
          show mapProg 0 ≤ y
          have h20 : mapProg 0 = 20 := by norm_num [mapProg]
          rw [h20]
          linarith

end ReasoningModel
